import Mathlib

/-!
Shallow embedding of the knowledge-graph core of this repository
(`backend/knowledge_graph.py`): the `Document` data model with its
content-derived MD5 identifier, the in-memory `KnowledgeGraphIndex`
store with keyword querying, the `QueryEngine` synthesis step and the
`DocumentIngestor` validation/ingestion gate.

Python `dict[str, Document]` is modelled as an insertion-ordered
association list (CPython dicts preserve insertion order and re-assigning
an existing key keeps its position).  Python `float` arithmetic on the
confidence heuristic is modelled over `ℚ`; the whitespace and case
handling of `str.lower` and `str.split` is modelled over ASCII.
-/

/- ### Python string primitives -/

/-- The whitespace characters recognised by Python `str.split()` /
`str.strip()` (ASCII fragment). -/
def isPySpace (c : Char) : Bool :=
  c == ' ' || c == '\t' || c == '\n' || c == '\r' || c == '\x0b' || c == '\x0c'

/-- Python `str.lower()` (ASCII model). -/
def lowerStr (s : String) : String :=
  String.mk (s.toList.map Char.toLower)

/-- Helper for `pySplitWS`: accumulate the current word (reversed). -/
def splitWSAux : List Char → List Char → List String
  | [], cur => if cur.isEmpty then [] else [String.mk cur.reverse]
  | c :: cs, cur =>
    if isPySpace c then
      if cur.isEmpty then splitWSAux cs [] else String.mk cur.reverse :: splitWSAux cs []
    else splitWSAux cs (c :: cur)

/-- Python `str.split()` with no separator: split on runs of whitespace,
dropping empty pieces. -/
def pySplitWS (s : String) : List String :=
  splitWSAux s.toList []

/-- `needle.isPrefixOf hay` on character lists. -/
def prefixChars : List Char → List Char → Bool
  | [], _ => true
  | _ :: _, [] => false
  | a :: as, b :: bs => a == b && prefixChars as bs

/-- Python substring membership `needle in hay` (contiguous substring). -/
def hasSubstr : List Char → List Char → Bool
  | n, [] => n.isEmpty
  | n, c :: t => prefixChars n (c :: t) || hasSubstr n t

/-- Python slicing `s[:n]` (by code points, clamped like Python slices). -/
def pyTake (n : Nat) (s : String) : String :=
  String.mk (s.toList.take n)

/-- Python truthiness test `not s or not s.strip()`: the string is empty or
consists solely of whitespace. -/
def isBlank (s : String) : Bool :=
  s.isEmpty || s.toList.all isPySpace

/- ### UTF-8 and MD5 (`content.encode()` / `hashlib.md5(...).hexdigest()`) -/

/-- UTF-8 encoding of one character, as byte values. -/
def utf8Bytes (c : Char) : List Nat :=
  let n := c.toNat
  if n < 128 then [n]
  else if n < 2048 then [192 ||| (n >>> 6), 128 ||| (n &&& 63)]
  else if n < 65536 then
    [224 ||| (n >>> 12), 128 ||| ((n >>> 6) &&& 63), 128 ||| (n &&& 63)]
  else
    [240 ||| (n >>> 18), 128 ||| ((n >>> 12) &&& 63),
     128 ||| ((n >>> 6) &&& 63), 128 ||| (n &&& 63)]

/-- Python `s.encode()`: UTF-8 bytes of a string. -/
def strBytes (s : String) : List Nat :=
  (s.toList.map utf8Bytes).flatten

/-- The MD5 sine-derived round constants (RFC 1321 table T). -/
def md5K : List Nat :=
  [3614090360, 3905402710, 606105819, 3250441966, 4118548399, 1200080426,
   2821735955, 4249261313, 1770035416, 2336552879, 4294925233, 2304563134,
   1804603682, 4254626195, 2792965006, 1236535329, 4129170786, 3225465664,
   643717713, 3921069994, 3593408605, 38016083, 3634488961, 3889429448,
   568446438, 3275163606, 4107603335, 1163531501, 2850285829, 4243563512,
   1735328473, 2368359562, 4294588738, 2272392833, 1839030562, 4259657740,
   2763975236, 1272893353, 4139469664, 3200236656, 681279174, 3936430074,
   3572445317, 76029189, 3654602809, 3873151461, 530742520, 3299628645,
   4096336452, 1126891415, 2878612391, 4237533241, 1700485571, 2399980690,
   4293915773, 2240044497, 1873313359, 4264355552, 2734768916, 1309151649,
   4149444226, 3174756917, 718787259, 3951481745]

/-- The MD5 per-round left-rotation amounts. -/
def md5S : List Nat :=
  [7, 12, 17, 22, 7, 12, 17, 22, 7, 12, 17, 22, 7, 12, 17, 22,
   5, 9, 14, 20, 5, 9, 14, 20, 5, 9, 14, 20, 5, 9, 14, 20,
   4, 11, 16, 23, 4, 11, 16, 23, 4, 11, 16, 23, 4, 11, 16, 23,
   6, 10, 15, 21, 6, 10, 15, 21, 6, 10, 15, 21, 6, 10, 15, 21]

/-- 32-bit left rotation on a value below `2 ^ 32`. -/
def rotl32 (x n : Nat) : Nat :=
  ((x <<< n) % 4294967296) ||| (x >>> (32 - n))

/-- One MD5 round: state `(a, b, c, d)`, message words `M`, round index `i`. -/
def md5Round (M : List Nat) (st : Nat × Nat × Nat × Nat) (i : Nat) :
    Nat × Nat × Nat × Nat :=
  let a := st.1
  let b := st.2.1
  let c := st.2.2.1
  let d := st.2.2.2
  let fg : Nat × Nat :=
    if i < 16 then ((b &&& c) ||| ((b ^^^ 4294967295) &&& d), i)
    else if i < 32 then ((d &&& b) ||| ((d ^^^ 4294967295) &&& c), (5 * i + 1) % 16)
    else if i < 48 then (b ^^^ c ^^^ d, (3 * i + 5) % 16)
    else (c ^^^ (b ||| (d ^^^ 4294967295)), (7 * i) % 16)
  let f2 := (fg.1 + a + md5K.getD i 0 + M.getD fg.2 0) % 4294967296
  (d, (b + rotl32 f2 (md5S.getD i 0)) % 4294967296, b, c)

/-- Process one 512-bit chunk (16 little-endian words `M`). -/
def md5Chunk (st0 : Nat × Nat × Nat × Nat) (M : List Nat) :
    Nat × Nat × Nat × Nat :=
  let r := (List.range 64).foldl (md5Round M) st0
  ((st0.1 + r.1) % 4294967296, (st0.2.1 + r.2.1) % 4294967296,
   (st0.2.2.1 + r.2.2.1) % 4294967296, (st0.2.2.2 + r.2.2.2) % 4294967296)

/-- The 8 little-endian bytes of a 64-bit value. -/
def le8 (n : Nat) : List Nat :=
  (List.range 8).map (fun i => (n >>> (8 * i)) &&& 255)

/-- The 4 little-endian bytes of a 32-bit value. -/
def le4 (n : Nat) : List Nat :=
  (List.range 4).map (fun i => (n >>> (8 * i)) &&& 255)

/-- MD5 padding: append `0x80`, zero-fill to 56 mod 64, append the bit
length as 64-bit little-endian. -/
def md5Pad (msg : List Nat) : List Nat :=
  msg ++ [128] ++ List.replicate ((119 - msg.length % 64) % 64) 0 ++
    le8 ((8 * msg.length) % 18446744073709551616)

/-- The 16 little-endian 32-bit words of one 64-byte chunk. -/
def chunkWords (chunk : List Nat) : List Nat :=
  (List.range 16).map (fun j =>
    chunk.getD (4 * j) 0 + ((chunk.getD (4 * j + 1) 0) <<< 8) +
    ((chunk.getD (4 * j + 2) 0) <<< 16) + ((chunk.getD (4 * j + 3) 0) <<< 24))

/-- Lowercase hex digit. -/
def hexDigit (n : Nat) : Char :=
  "0123456789abcdef".toList.getD n '0'

/-- Two lowercase hex digits of a byte. -/
def byteHex (b : Nat) : String :=
  String.mk [hexDigit (b / 16), hexDigit (b % 16)]

/-- Python `hashlib.md5(s.encode()).hexdigest()`. -/
def md5Hex (s : String) : String :=
  let padded := md5Pad (strBytes s)
  let st := (List.range (padded.length / 64)).foldl
    (fun st i => md5Chunk st (chunkWords ((padded.drop (64 * i)).take 64)))
    (1732584193, 4023233417, 2562383102, 271733878)
  String.join ((le4 st.1 ++ le4 st.2.1 ++ le4 st.2.2.1 ++ le4 st.2.2.2).map byteHex)

/- ### Data model -/

/-- A loosely-typed value, modelling the `Any` side of Python
`Dict[str, Any]` metadata as the core actually uses it (strings and
integers). -/
inductive PyVal where
  | s (v : String)
  | n (v : Nat)
deriving DecidableEq, Repr

/-- `Document` dataclass.  `created_at` (captured from
`datetime.utcnow()`) is modelled as an externally supplied timestamp. -/
structure Document where
  id : String
  content : String
  title : String
  source : String
  metadata : List (String × PyVal)
  created_at : Nat
deriving DecidableEq, Repr

/-- `Document.__post_init__`: when no id was supplied, derive it as the
MD5 hex digest of the content. -/
def Document.postInit (d : Document) : Document :=
  if d.id = "" then { d with id := md5Hex d.content } else d

/-- `SynthesisResult` dataclass (confidence over `ℚ`). -/
structure SynthesisResult where
  query : String
  response : String
  sources : List Document
  confidence : ℚ
  metadata : List (String × PyVal)
deriving DecidableEq, Repr

/- ### KnowledgeGraphIndex -/

/-- The in-memory store: `self.documents` is a `dict[str, Document]`,
modelled as an insertion-ordered association list, plus the `indexed`
flag. -/
structure KnowledgeGraphIndex where
  documents : List (String × Document)
  indexed : Bool
deriving DecidableEq, Repr

/-- Python `d[k] = v` on an insertion-ordered dict: update in place when
the key exists, otherwise append. -/
def dictSet (m : List (String × Document)) (k : String) (v : Document) :
    List (String × Document) :=
  if m.any (fun p => p.1 == k) then
    m.map (fun p => if p.1 == k then (k, v) else p)
  else m ++ [(k, v)]

/-- `KnowledgeGraphIndex.__init__`. -/
def KnowledgeGraphIndex.init : KnowledgeGraphIndex :=
  { documents := [], indexed := false }

/-- `add_documents`: store each document under its id, then set
`self.indexed = True`. -/
def KnowledgeGraphIndex.add_documents (st : KnowledgeGraphIndex)
    (docs : List Document) : KnowledgeGraphIndex :=
  { documents := docs.foldl (fun m d => dictSet m d.id d) st.documents,
    indexed := true }

/-- Stable insertion into a score-descending list: an element goes in
front of the first entry of equal-or-smaller score (matching CPython
`list.sort(key=..., reverse=True)`, which keeps ties in original order). -/
def insertByScoreDesc (x : Nat × Document) :
    List (Nat × Document) → List (Nat × Document)
  | [] => [x]
  | y :: ys => if y.1 ≤ x.1 then x :: y :: ys else y :: insertByScoreDesc x ys

/-- Stable sort by score descending (model of
`scored_docs.sort(key=lambda x: x[0], reverse=True)`). -/
def sortByScoreDesc : List (Nat × Document) → List (Nat × Document)
  | [] => []
  | x :: xs => insertByScoreDesc x (sortByScoreDesc xs)

/-- The per-document keyword score of `query`: one point per term of the
split query list that occurs as a substring of the lowercased content. -/
def docScore (query_terms : List String) (doc : Document) : Nat :=
  (query_terms.filter (fun term =>
    hasSubstr term.toList (lowerStr doc.content).toList)).length

/-- `query`: guard on `indexed`, split the lowercased query text, score
each stored document, keep positive scores, stable-sort descending,
truncate to `top_k`.  (Python default `top_k=5` is passed explicitly by
callers here.) -/
def KnowledgeGraphIndex.query (st : KnowledgeGraphIndex)
    (query_text : String) (top_k : Nat) : List Document :=
  if st.indexed = false then []
  else
    let query_terms := pySplitWS (lowerStr query_text)
    let scored_docs := (st.documents.map Prod.snd).filterMap (fun doc =>
      let score := docScore query_terms doc
      if 0 < score then some (score, doc) else none)
    ((sortByScoreDesc scored_docs).take top_k).map Prod.snd

/-- `get_document`: `self.documents.get(doc_id)`. -/
def KnowledgeGraphIndex.get_document (st : KnowledgeGraphIndex)
    (doc_id : String) : Option Document :=
  (st.documents.find? (fun p => p.1 == doc_id)).map Prod.snd

/-- `list_documents`: `list(self.documents.values())`. -/
def KnowledgeGraphIndex.list_documents (st : KnowledgeGraphIndex) :
    List Document :=
  st.documents.map Prod.snd

/-- `clear`: drop all documents and reset the flag. -/
def KnowledgeGraphIndex.clear (_st : KnowledgeGraphIndex) :
    KnowledgeGraphIndex :=
  { documents := [], indexed := false }

/-- `document_count`: `len(self.documents)`. -/
def KnowledgeGraphIndex.document_count (st : KnowledgeGraphIndex) : Nat :=
  st.documents.length

/- State-passing forms of the methods.  Each Python method body is
translated statement by statement; a method that assigns no field of
`self` returns the incoming state as its final state. -/

/-- `query` as a state transformer (no statement in its body writes a
field of `self`). -/
def KnowledgeGraphIndex.queryOp (st : KnowledgeGraphIndex)
    (query_text : String) (top_k : Nat) :
    List Document × KnowledgeGraphIndex :=
  (st.query query_text top_k, st)

/-- `get_document` as a state transformer. -/
def KnowledgeGraphIndex.get_documentOp (st : KnowledgeGraphIndex)
    (doc_id : String) : Option Document × KnowledgeGraphIndex :=
  (st.get_document doc_id, st)

/-- `list_documents` as a state transformer. -/
def KnowledgeGraphIndex.list_documentsOp (st : KnowledgeGraphIndex) :
    List Document × KnowledgeGraphIndex :=
  (st.list_documents, st)

/-- `document_count` as a state transformer. -/
def KnowledgeGraphIndex.document_countOp (st : KnowledgeGraphIndex) :
    Nat × KnowledgeGraphIndex :=
  (st.document_count, st)

/- ### QueryEngine -/

/-- `QueryEngine._generate_response`: header, blank line, "Key findings:",
one numbered line per content piece, blank line, closing sentence. -/
def QueryEngine.generate_response (query : String)
    (content_pieces : List String) : String :=
  if content_pieces.isEmpty then "No relevant information found."
  else
    let response_parts :=
      ["Based on the research documents, here\x27s the synthesis for: \x27"
         ++ query ++ "\x27", "", "Key findings:"]
    let numbered := content_pieces.enum.map
      (fun ic => toString (ic.1 + 1) ++ ". " ++ ic.2)
    String.intercalate "\n"
      (response_parts ++ numbered ++
       ["", "This synthesis combines insights from multiple sources."])

/-- The fixed-format excerpt built for each context document:
`"From '<title>': <content[:200]>..."`. -/
def QueryEngine.excerpt (doc : Document) : String :=
  "From \x27" ++ doc.title ++ "\x27: " ++ pyTake 200 doc.content ++ "..."

/-- The context-resolution step of `synthesize`: `if context_docs is None:
context_docs = self.index.query(query)` (store default `top_k = 5`). -/
def QueryEngine.resolveContext (index : KnowledgeGraphIndex)
    (query : String) (context_docs : Option (List Document)) :
    List Document :=
  match context_docs with
  | none => index.query query 5
  | some docs => docs

/-- `QueryEngine.synthesize`.  `context_docs = none` models the Python
default `None` (then the store is queried with its default `top_k = 5`);
`now` models the `datetime.utcnow().isoformat()` timestamp string. -/
def QueryEngine.synthesize (index : KnowledgeGraphIndex) (query : String)
    (context_docs : Option (List Document)) (now : String) :
    SynthesisResult :=
  let ctx := QueryEngine.resolveContext index query context_docs
  if ctx.isEmpty then
    { query := query,
      response := "No relevant documents found for this query.",
      sources := [], confidence := 0,
      metadata := [("status", PyVal.s "no_results")] }
  else
    { query := query,
      response := QueryEngine.generate_response query (ctx.map QueryEngine.excerpt),
      sources := ctx,
      confidence := min ((1 : ℚ) / 2 + ctx.length * ((1 : ℚ) / 10)) (19 / 20),
      metadata := [("status", PyVal.s "success"),
                   ("document_count", PyVal.n ctx.length),
                   ("timestamp", PyVal.s now)] }

/- ### DocumentIngestor -/

/-- `ingest_text`: build a Document with empty id (so `__post_init__`
derives it from the content), add it to the store, return it.  Python
defaults `source="manual"`, `metadata=None -> {}` are passed explicitly. -/
def DocumentIngestor.ingest_text (st : KnowledgeGraphIndex)
    (content title source : String) (metadata : List (String × PyVal))
    (now : Nat) : Document × KnowledgeGraphIndex :=
  let doc := Document.postInit
    { id := "", content := content, title := title, source := source,
      metadata := metadata, created_at := now }
  (doc, st.add_documents [doc])

/-- One raw item of `ingest_batch`: required `content`/`title`, optional
`source`/`metadata` keys. -/
structure BatchItem where
  content : String
  title : String
  source : Option String
  metadata : Option (List (String × PyVal))
deriving DecidableEq, Repr

/-- The Document `ingest_batch` constructs from one raw item
(`data.get("source", "batch")`, `data.get("metadata", {})`). -/
def BatchItem.toDocument (data : BatchItem) (now : Nat) : Document :=
  Document.postInit
    { id := "", content := data.content, title := data.title,
      source := data.source.getD "batch",
      metadata := data.metadata.getD [], created_at := now }

/-- `ingest_batch`: build one Document per item in order, then perform a
single `add_documents` call with the whole batch. -/
def DocumentIngestor.ingest_batch (st : KnowledgeGraphIndex)
    (documents_data : List BatchItem) (now : Nat) :
    List Document × KnowledgeGraphIndex :=
  let documents := documents_data.map (fun data => data.toDocument now)
  (documents, st.add_documents documents)

/-- `validate_document`: content emptiness, then title emptiness, then
the 10,000,000-character size ceiling. -/
def DocumentIngestor.validate_document (content title : String) :
    Bool × Option String :=
  if isBlank content then (false, some "Document content cannot be empty")
  else if isBlank title then (false, some "Document title cannot be empty")
  else if 10000000 < content.length then
    (false, some "Document content exceeds maximum size (10MB)")
  else (true, none)

/- ### Spec-side formulations of the ranking (for claim C1) -/

/-- Specification reading of "sorted by score descending with ties keeping
the enumeration order": for each score value from `maxScore` down to 0,
list the documents attaining it, in enumeration order. -/
def rankedBuckets (score : Document → Nat) (docs : List Document)
    (maxScore : Nat) : List Document :=
  (((List.range (maxScore + 1)).reverse).map
    (fun s0 => docs.filter (fun d => decide (score d = s0)))).flatten

/-- The ranking as the claim words it, scoring +1 per DISTINCT lowercased
query term present in the content (duplicated query terms counted once). -/
def querySpecDistinct (st : KnowledgeGraphIndex) (query_text : String)
    (top_k : Nat) : List Document :=
  if st.indexed = false then []
  else
    (rankedBuckets (docScore ((pySplitWS (lowerStr query_text)).dedup))
      (st.list_documents.filter
        (fun d => decide (0 < docScore ((pySplitWS (lowerStr query_text)).dedup) d)))
      ((pySplitWS (lowerStr query_text)).dedup).length).take top_k

/-- The ranking as the amended claim words it, scoring +1 per occurrence
of a term in the whitespace-split query list (duplicated query terms each
contribute; multiple occurrences in the content still count once). -/
def querySpecMulti (st : KnowledgeGraphIndex) (query_text : String)
    (top_k : Nat) : List Document :=
  if st.indexed = false then []
  else
    (rankedBuckets (docScore (pySplitWS (lowerStr query_text)))
      (st.list_documents.filter
        (fun d => decide (0 < docScore (pySplitWS (lowerStr query_text)) d)))
      (pySplitWS (lowerStr query_text)).length).take top_k

/-- Score-indexed buckets of scored pairs. -/
def scoreBuckets (ss : List Nat) (l : List (Nat × Document)) :
    List (Nat × Document) :=
  (ss.map (fun s0 => l.filter (fun y => decide (y.1 = s0)))).flatten

/- ### Concrete fixtures used by witnesses and counterexamples -/

/-- A stored document whose content is the single word "cat". -/
def docCat : Document :=
  { id := "idA", content := "cat", title := "A", source := "s",
    metadata := [], created_at := 0 }

/-- A stored document whose content is the single word "dog". -/
def docDog : Document :=
  { id := "idB", content := "dog", title := "B", source := "s",
    metadata := [], created_at := 0 }

/-- An indexed store enumerating `docDog` before `docCat`. -/
def storeCatDog : KnowledgeGraphIndex :=
  { documents := [("idB", docDog), ("idA", docCat)], indexed := true }

/- ### Lemmas about the stable descending sort -/

lemma scoreBuckets_nil (ss : List Nat) : scoreBuckets ss [] = [] := by
  induction ss with
  | nil => rfl
  | cons s ss _ => simp [scoreBuckets]

lemma fst_mem_of_mem_scoreBuckets {y : Nat × Document} {ss : List Nat}
    {l : List (Nat × Document)} (h : y ∈ scoreBuckets ss l) : y.1 ∈ ss := by
  simp only [scoreBuckets, List.mem_flatten, List.mem_map] at h
  obtain ⟨b, ⟨s0, hs0, rfl⟩, hy⟩ := h
  obtain ⟨-, hy2⟩ := List.mem_filter.mp hy
  rwa [decide_eq_true_eq.mp hy2]

lemma insertByScoreDesc_of_le (x : Nat × Document)
    (L : List (Nat × Document)) (h : ∀ y ∈ L, y.1 ≤ x.1) :
    insertByScoreDesc x L = x :: L := by
  cases L with
  | nil => rfl
  | cons y ys => simp [insertByScoreDesc, h y (List.mem_cons_self y ys)]

lemma insertByScoreDesc_append_of_gt (x : Nat × Document)
    (P Q : List (Nat × Document)) (h : ∀ y ∈ P, x.1 < y.1) :
    insertByScoreDesc x (P ++ Q) = P ++ insertByScoreDesc x Q := by
  induction P with
  | nil => rfl
  | cons y ys ih =>
    have hy : x.1 < y.1 := h y (List.mem_cons_self y ys)
    show insertByScoreDesc x (y :: (ys ++ Q)) = y :: (ys ++ insertByScoreDesc x Q)
    rw [insertByScoreDesc, if_neg (Nat.not_le.mpr hy),
      ih (fun z hz => h z (List.mem_cons_of_mem y hz))]

lemma insertByScoreDesc_scoreBuckets (x : Nat × Document) (ss : List Nat)
    (l : List (Nat × Document)) (hss : ss.Pairwise (fun a b => b < a))
    (hx : x.1 ∈ ss) :
    insertByScoreDesc x (scoreBuckets ss l) = scoreBuckets ss (x :: l) := by
  induction ss with
  | nil => cases hx
  | cons s ss ih =>
    rw [List.pairwise_cons] at hss
    by_cases hxs : x.1 = s
    · have hle : ∀ y ∈ scoreBuckets (s :: ss) l, y.1 ≤ x.1 := by
        intro y hy
        have hy1 : y.1 ∈ s :: ss := fst_mem_of_mem_scoreBuckets hy
        rcases List.mem_cons.mp hy1 with h1 | h1
        · omega
        · have := hss.1 _ h1; omega
      rw [insertByScoreDesc_of_le x _ hle]
      have hhead : (x :: l).filter (fun y => decide (y.1 = s))
          = x :: l.filter (fun y => decide (y.1 = s)) := by
        rw [List.filter_cons]; simp [hxs]
      have htail : ss.map (fun s0 => (x :: l).filter (fun y => decide (y.1 = s0)))
          = ss.map (fun s0 => l.filter (fun y => decide (y.1 = s0))) := by
        refine List.map_congr_left (fun s0 hs0 => ?_)
        rw [List.filter_cons]
        have hne : ¬ x.1 = s0 := by have := hss.1 _ hs0; omega
        simp [hne]
      simp only [scoreBuckets, List.map_cons, List.flatten_cons, hhead, htail]
      rfl
    · have hx2 : x.1 ∈ ss := by
        rcases List.mem_cons.mp hx with h1 | h1
        · exact absurd h1 hxs
        · exact h1
      have hlt : x.1 < s := hss.1 _ hx2
      have hbucket : (x :: l).filter (fun y => decide (y.1 = s))
          = l.filter (fun y => decide (y.1 = s)) := by
        rw [List.filter_cons]; simp [hxs]
      simp only [scoreBuckets, List.map_cons, List.flatten_cons, hbucket]
      have hgt : ∀ y ∈ l.filter (fun y => decide (y.1 = s)), x.1 < y.1 := by
        intro y hy
        obtain ⟨-, hy2⟩ := List.mem_filter.mp hy
        rw [decide_eq_true_eq.mp hy2]; exact hlt
      rw [insertByScoreDesc_append_of_gt x _ _ hgt]
      exact congrArg (fun t => l.filter (fun y => decide (y.1 = s)) ++ t)
        (ih hss.2 hx2)

lemma sortByScoreDesc_eq_scoreBuckets (ss : List Nat)
    (l : List (Nat × Document)) (hss : ss.Pairwise (fun a b => b < a))
    (hmem : ∀ y ∈ l, y.1 ∈ ss) :
    sortByScoreDesc l = scoreBuckets ss l := by
  induction l with
  | nil => rw [scoreBuckets_nil]; rfl
  | cons x xs ih =>
    rw [show sortByScoreDesc (x :: xs) = insertByScoreDesc x (sortByScoreDesc xs) from rfl,
      ih (fun y hy => hmem y (List.mem_cons_of_mem x hy)),
      insertByScoreDesc_scoreBuckets x ss xs hss (hmem x (List.mem_cons_self x xs))]

lemma filterMap_score (terms : List String) (docs : List Document) :
    (docs.filterMap (fun doc =>
      let score := docScore terms doc
      if 0 < score then some (score, doc) else none))
    = (docs.filter (fun d => decide (0 < docScore terms d))).map
        (fun d => (docScore terms d, d)) := by
  induction docs with
  | nil => rfl
  | cons d ds ih =>
    by_cases h : 0 < docScore terms d <;>
      simp [List.filterMap_cons, List.filter_cons, h, ih]

lemma map_snd_filter_fst (f : Document → Nat) (m : List Document) (s0 : Nat) :
    (((m.map (fun d => (f d, d))).filter (fun y => decide (y.1 = s0))).map
      Prod.snd) = m.filter (fun d => decide (f d = s0)) := by
  induction m with
  | nil => rfl
  | cons d ds ih =>
    by_cases h : f d = s0 <;> simp [List.filter_cons, h, ih]

lemma map_snd_scoreBuckets (f : Document → Nat) (m : List Document)
    (ss : List Nat) :
    (scoreBuckets ss (m.map (fun d => (f d, d)))).map Prod.snd
    = (ss.map (fun s0 => m.filter (fun d => decide (f d = s0)))).flatten := by
  simp only [scoreBuckets]
  rw [List.map_flatten]
  congr 1
  rw [List.map_map]
  exact List.map_congr_left (fun s0 _ => map_snd_filter_fst f m s0)

lemma docScore_le_length (terms : List String) (d : Document) :
    docScore terms d ≤ terms.length :=
  List.length_filter_le _ _

lemma query_eq_querySpecMulti (st : KnowledgeGraphIndex) (text : String)
    (k : Nat) : st.query text k = querySpecMulti st text k := by
  cases hb : st.indexed with
  | false => simp [KnowledgeGraphIndex.query, querySpecMulti, hb]
  | true =>
    simp only [KnowledgeGraphIndex.query, querySpecMulti, hb,
      Bool.true_eq_false, if_false]
    rw [filterMap_score]
    have hss : ((List.range ((pySplitWS (lowerStr text)).length + 1)).reverse).Pairwise
        (fun a b => b < a) :=
      List.pairwise_reverse.mpr (List.pairwise_lt_range _)
    have hmem : ∀ y ∈ (((st.documents.map Prod.snd).filter
          (fun d => decide (0 < docScore (pySplitWS (lowerStr text)) d))).map
          (fun d => (docScore (pySplitWS (lowerStr text)) d, d))),
        y.1 ∈ (List.range ((pySplitWS (lowerStr text)).length + 1)).reverse := by
      intro y hy
      simp only [List.mem_map] at hy
      obtain ⟨d, _, rfl⟩ := hy
      simp only [List.mem_reverse, List.mem_range, Nat.lt_succ_iff]
      exact docScore_le_length _ d
    rw [sortByScoreDesc_eq_scoreBuckets _ _ hss hmem, List.map_take,
      map_snd_scoreBuckets]
    rfl

/- ### The claims -/

/-- C1 counterexample: on a store enumerating the "dog" document before
the "cat" document, the query "cat cat dog" (duplicated term) makes the
code score the "cat" document 2 and the "dog" document 1, returning
[cat, dog]; scoring +1 per DISTINCT term present, as the claim states,
would make both score 1 and the stable order would return [dog, cat]. -/
theorem C1_counterexample :
    KnowledgeGraphIndex.query storeCatDog "cat cat dog" 5 = [docCat, docDog] ∧
    querySpecDistinct storeCatDog "cat cat dog" 5 = [docDog, docCat] ∧
    docCat ≠ docDog := by decide

/-- C1 (amended): for every store and query, `query` returns exactly the
stored documents whose lowercased content contains at least one
whitespace-split lowercased query term, scored +1 per occurrence of a
term in the split query list (duplicated query terms each contribute;
multiple occurrences inside the content still count once), sorted by
score descending with ties keeping enumeration order, truncated to
`top_k`; zero-score documents never appear, and the unindexed guard
returns the empty list. -/
theorem C1_ranking_amended :
    ∀ (st : KnowledgeGraphIndex) (text : String) (k : Nat),
      st.query text k = querySpecMulti st text k :=
  query_eq_querySpecMulti

/-- C2: a store whose `indexed` flag is false answers every query with
the empty sequence; any `add_documents` call — including one carrying an
empty batch — sets the flag, every other operation preserves it, and
only `clear` resets it. -/
theorem C2_indexed_guard :
    (∀ (st : KnowledgeGraphIndex) (text : String) (k : Nat),
      st.indexed = false → st.query text k = []) ∧
    (∀ (st : KnowledgeGraphIndex) (docs : List Document),
      (st.add_documents docs).indexed = true) ∧
    ((KnowledgeGraphIndex.init.add_documents []).indexed = true) ∧
    (∀ (st : KnowledgeGraphIndex) (text : String) (k : Nat),
      (st.queryOp text k).2.indexed = st.indexed) ∧
    (∀ (st : KnowledgeGraphIndex) (i : String),
      (st.get_documentOp i).2.indexed = st.indexed) ∧
    (∀ st : KnowledgeGraphIndex, st.list_documentsOp.2.indexed = st.indexed) ∧
    (∀ st : KnowledgeGraphIndex, st.document_countOp.2.indexed = st.indexed) ∧
    (∀ st : KnowledgeGraphIndex, st.clear.indexed = false) := by
  refine ⟨?_, fun _ _ => rfl, rfl, fun _ _ _ => rfl, fun _ _ => rfl,
    fun _ => rfl, fun _ => rfl, fun _ => rfl⟩
  intro st text k h
  simp [KnowledgeGraphIndex.query, h]

/-- C2 witness: the freshly constructed store answers a query with the
empty sequence, and adding an empty batch flips the flag. -/
theorem C2_witness :
    KnowledgeGraphIndex.query KnowledgeGraphIndex.init "machine learning" 5 = [] :=
  C2_indexed_guard.1 KnowledgeGraphIndex.init "machine learning" 5 rfl

/-- C3: a Document constructed with an unset id derives the id from the
content alone — the same content gives the same id whatever the title,
source, metadata and timestamp are — and ingesting two documents with
identical content and different titles into a fresh store leaves exactly
one entry, bearing the title of the one ingested last. -/
theorem C3_content_addressed :
    (∀ (c t1 s1 t2 s2 : String) (m1 m2 : List (String × PyVal)) (n1 n2 : Nat),
      (Document.postInit
        { id := "", content := c, title := t1, source := s1,
          metadata := m1, created_at := n1 }).id
      = (Document.postInit
        { id := "", content := c, title := t2, source := s2,
          metadata := m2, created_at := n2 }).id) ∧
    (∀ (c t1 s1 t2 s2 : String) (m1 m2 : List (String × PyVal)) (n1 n2 : Nat),
      ((DocumentIngestor.ingest_text
          (DocumentIngestor.ingest_text KnowledgeGraphIndex.init
            c t1 s1 m1 n1).2
          c t2 s2 m2 n2).2.documents.map (fun p => p.2.title)) = [t2]) := by
  constructor
  · intro c t1 s1 t2 s2 m1 m2 n1 n2
    simp [Document.postInit]
  · intro c t1 s1 t2 s2 m1 m2 n1 n2
    simp [DocumentIngestor.ingest_text, Document.postInit,
      KnowledgeGraphIndex.add_documents, KnowledgeGraphIndex.init, dictSet]

/-- C4: with n ≥ 1 context documents the confidence equals
min(0.5 + 0.1 · n, 0.95) and lies in [0.5, 0.95]; with zero context
documents it is exactly 0. -/
theorem C4_confidence_bounds :
    (∀ (idx : KnowledgeGraphIndex) (q now : String)
      (ctx : Option (List Document)),
      QueryEngine.resolveContext idx q ctx ≠ [] →
      (QueryEngine.synthesize idx q ctx now).confidence
        = min ((1 : ℚ) / 2
            + (QueryEngine.resolveContext idx q ctx).length * ((1 : ℚ) / 10))
          (19 / 20) ∧
      (1 : ℚ) / 2 ≤ (QueryEngine.synthesize idx q ctx now).confidence ∧
      (QueryEngine.synthesize idx q ctx now).confidence ≤ 19 / 20) ∧
    (∀ (idx : KnowledgeGraphIndex) (q now : String)
      (ctx : Option (List Document)),
      QueryEngine.resolveContext idx q ctx = [] →
      (QueryEngine.synthesize idx q ctx now).confidence = 0) := by
  constructor
  · intro idx q now ctx h
    have hne : (QueryEngine.resolveContext idx q ctx).isEmpty = false := by
      cases hL : QueryEngine.resolveContext idx q ctx with
      | nil => exact absurd hL h
      | cons d ds => rfl
    have hmono : (0 : ℚ) ≤
        ((QueryEngine.resolveContext idx q ctx).length : ℚ) * ((1 : ℚ) / 10) := by
      positivity
    simp only [QueryEngine.synthesize, hne, Bool.false_eq_true, if_false]
    exact ⟨by simp, le_min (by linarith) (by norm_num), min_le_right _ _⟩
  · intro idx q now ctx h
    simp [QueryEngine.synthesize, h]

/-- C4 witness: one context document yields a confidence of at least 0.5
(equal to min(0.6, 0.95)). -/
theorem C4_witness :
    (1 : ℚ) / 2 ≤ (QueryEngine.synthesize KnowledgeGraphIndex.init "q"
      (some [docCat]) "t").confidence :=
  (C4_confidence_bounds.1 KnowledgeGraphIndex.init "q" "t" (some [docCat])
    (by simp [QueryEngine.resolveContext])).2.1

/-- C5: whenever the resolved context is empty, `synthesize` returns the
fully-formed no-results value: the literal response string, empty
sources, confidence 0, and a metadata map holding exactly the single
entry status = "no_results". -/
theorem C5_no_results :
    ∀ (idx : KnowledgeGraphIndex) (q now : String)
      (ctx : Option (List Document)),
      QueryEngine.resolveContext idx q ctx = [] →
      QueryEngine.synthesize idx q ctx now =
        { query := q,
          response := "No relevant documents found for this query.",
          sources := [], confidence := 0,
          metadata := [("status", PyVal.s "no_results")] } := by
  intro idx q now ctx h
  simp [QueryEngine.synthesize, h]

/-- C5 witness: synthesizing against the fresh store (whose query returns
no documents) produces the no-results value without failing. -/
theorem C5_witness :
    QueryEngine.synthesize KnowledgeGraphIndex.init "quantum physics" none "t" =
      { query := "quantum physics",
        response := "No relevant documents found for this query.",
        sources := [], confidence := 0,
        metadata := [("status", PyVal.s "no_results")] } :=
  C5_no_results KnowledgeGraphIndex.init "quantum physics" "t" none rfl

/-- C6: validation checks content emptiness first, then title emptiness,
then the 10,000,000-character ceiling — so a whitespace-only content
reports the empty-content failure whatever its length, and a document
passing all three checks validates with no error. -/
theorem C6_validate_order :
    ∀ content title : String,
      (isBlank content = true →
        DocumentIngestor.validate_document content title
          = (false, some "Document content cannot be empty")) ∧
      (isBlank content = false → isBlank title = true →
        DocumentIngestor.validate_document content title
          = (false, some "Document title cannot be empty")) ∧
      (isBlank content = false → isBlank title = false →
        10000000 < content.length →
        DocumentIngestor.validate_document content title
          = (false, some "Document content exceeds maximum size (10MB)")) ∧
      (isBlank content = false → isBlank title = false →
        content.length ≤ 10000000 →
        DocumentIngestor.validate_document content title = (true, none)) := by
  intro c t
  refine ⟨fun h1 => ?_, fun h1 h2 => ?_, fun h1 h2 h3 => ?_,
    fun h1 h2 h3 => ?_⟩
  · simp [DocumentIngestor.validate_document, h1]
  · simp [DocumentIngestor.validate_document, h1, h2]
  · simp [DocumentIngestor.validate_document, h1, h2, h3]
  · have h4 : ¬ (10000000 < c.length) := by omega
    simp [DocumentIngestor.validate_document, h1, h2, h4]

/-- C6 witness: whitespace-only content is rejected as empty content. -/
theorem C6_witness :
    DocumentIngestor.validate_document " " "Title"
      = (false, some "Document content cannot be empty") :=
  (C6_validate_order " " "Title").1 (by decide)

/-- C7: for a non-empty context, every excerpt has the exact form
"From '<title>': <first 200 characters of content>..." with the ellipsis
appended unconditionally, the response is generated from exactly those
excerpts in order, and the sources are exactly the context documents in
their given order. -/
theorem C7_excerpts_and_sources :
    ∀ (idx : KnowledgeGraphIndex) (q now : String)
      (ctx : Option (List Document)),
      QueryEngine.resolveContext idx q ctx ≠ [] →
      (QueryEngine.synthesize idx q ctx now).sources
        = QueryEngine.resolveContext idx q ctx ∧
      (QueryEngine.synthesize idx q ctx now).response
        = QueryEngine.generate_response q
            ((QueryEngine.resolveContext idx q ctx).map QueryEngine.excerpt) ∧
      ∀ d ∈ QueryEngine.resolveContext idx q ctx, QueryEngine.excerpt d
        = "From \x27" ++ d.title ++ "\x27: " ++ pyTake 200 d.content ++ "..." := by
  intro idx q now ctx h
  have hne : (QueryEngine.resolveContext idx q ctx).isEmpty = false := by
    cases hL : QueryEngine.resolveContext idx q ctx with
    | nil => exact absurd hL h
    | cons d ds => rfl
  simp only [QueryEngine.synthesize, hne, Bool.false_eq_true, if_false]
  exact ⟨by simp, by simp, fun d _ => rfl⟩

/-- C7 witness: a one-document context is echoed as the sources, and its
excerpt carries the ellipsis although the content is shorter than 200
characters. -/
theorem C7_witness :
    (QueryEngine.synthesize KnowledgeGraphIndex.init "q"
      (some [docCat]) "t").sources = [docCat] :=
  (C7_excerpts_and_sources KnowledgeGraphIndex.init "q" "t" (some [docCat])
    (by simp [QueryEngine.resolveContext])).1

/-- C8: `query` is a total function, and both degenerate inputs degrade
to the empty result rather than failing: a store holding no documents
(whatever its flag) and a query text splitting into zero terms. -/
theorem C8_query_total_degrades :
    (∀ (b : Bool) (text : String) (k : Nat),
      KnowledgeGraphIndex.query { documents := [], indexed := b } text k = []) ∧
    (∀ (st : KnowledgeGraphIndex) (text : String) (k : Nat),
      pySplitWS (lowerStr text) = [] → st.query text k = []) := by
  constructor
  · intro b text k
    cases b <;> simp [KnowledgeGraphIndex.query, sortByScoreDesc]
  · intro st text k h
    cases hb : st.indexed with
    | false => simp [KnowledgeGraphIndex.query, hb]
    | true =>
      simp only [KnowledgeGraphIndex.query, hb, Bool.true_eq_false, if_false]
      rw [filterMap_score]
      have hf : (st.documents.map Prod.snd).filter
          (fun d => decide (0 < docScore (pySplitWS (lowerStr text)) d)) = [] := by
        refine List.filter_eq_nil_iff.mpr (fun d _ => ?_)
        simp [docScore, h]
      rw [hf]
      simp [sortByScoreDesc]

/-- C8 witness: a whitespace-only query against a populated indexed store
returns the empty sequence. -/
theorem C8_witness :
    KnowledgeGraphIndex.query storeCatDog "   " 5 = [] :=
  C8_query_total_degrades.2 storeCatDog "   " 5 (by decide)

/-- C9: `ingest_batch` constructs exactly one Document per item in input
order (with defaults source = "batch" and metadata = {} for absent
fields, the id derived from content by `__post_init__`), returns them,
and the final store is exactly one `add_documents` call carrying the
whole batch, which leaves the indexed flag true. -/
theorem C9_batch_single_add :
    ∀ (st : KnowledgeGraphIndex) (items : List BatchItem) (now : Nat),
      (DocumentIngestor.ingest_batch st items now).1
        = items.map (fun data => data.toDocument now) ∧
      (∀ data : BatchItem, data.toDocument now = Document.postInit
        { id := "", content := data.content, title := data.title,
          source := data.source.getD "batch",
          metadata := data.metadata.getD [], created_at := now }) ∧
      (DocumentIngestor.ingest_batch st items now).2
        = st.add_documents (items.map (fun data => data.toDocument now)) ∧
      (DocumentIngestor.ingest_batch st items now).2.indexed = true := by
  intro st items now
  exact ⟨rfl, fun _ => rfl, rfl, rfl⟩

/-- C10: the read operations — query, get_document, list_documents and
document_count — leave the documents map and the indexed flag exactly as
they were. -/
theorem C10_reads_pure :
    ∀ (st : KnowledgeGraphIndex) (text i : String) (k : Nat),
      ((st.queryOp text k).2.documents = st.documents ∧
        (st.queryOp text k).2.indexed = st.indexed) ∧
      ((st.get_documentOp i).2.documents = st.documents ∧
        (st.get_documentOp i).2.indexed = st.indexed) ∧
      (st.list_documentsOp.2.documents = st.documents ∧
        st.list_documentsOp.2.indexed = st.indexed) ∧
      (st.document_countOp.2.documents = st.documents ∧
        st.document_countOp.2.indexed = st.indexed) := by
  intro st text i k
  exact ⟨⟨rfl, rfl⟩, ⟨rfl, rfl⟩, ⟨rfl, rfl⟩, ⟨rfl, rfl⟩⟩
